import Mathlib

/-!
Shallow embedding of the `chi_server` Go package (middleware.go: the
correlation-ID middleware, the request logger over chi's
`WrapResponseWriter`, and the `Server.Run` lifecycle loop).

Modelling conventions:
* Go strings are Lean `String`s; byte counts are `Nat`.
* `http.Header` is an association list from header name to value.  Go
  canonicalises MIME header keys; every name appearing in this
  development ("X-Correlation-ID", "X-Custom-Request-ID") is already in
  canonical form, so canonicalisation is the identity on everything we
  touch and is not modelled.
* `context.Context` is an association list from keys to dynamically
  typed values (`context.WithValue` makes a child node consulted before
  the parent, i.e. cons).
* `uuid.New().String()` is modelled by a `UUID` value (16 raw bytes,
  the randomness source) together with the google/uuid hyphenated
  lowercase-hex rendering `UUID.toStr`.
* The process-global mutable variable `CorrelationIDHeader` is passed
  to the middleware as the explicit parameter `hdr` holding the
  variable's value at request time.
* Goroutine timing and the `select` in `Server.Run` are modelled by an
  explicit environment (`RunEnv`) recording which events have occurred
  and the scheduler's choice when both `select` cases are ready (per
  the Go specification, a ready case is then chosen pseudo-randomly).
-/

/-! ### HTTP headers (http.Header) -/

abbrev Headers := List (String × String)

/-- `http.Header.Get`: first value for the key, `""` when absent. -/
def headersGet : Headers → String → String
  | [], _ => ""
  | p :: t, k => if p.1 = k then p.2 else headersGet t k

/-- Helper for `headersSet`: drop every entry for the key. -/
def headersDrop : Headers → String → Headers
  | [], _ => []
  | p :: t, k => if p.1 = k then headersDrop t k else p :: headersDrop t k

/-- `http.Header.Set`: replace all values for the key by the single value. -/
def headersSet (h : Headers) (k v : String) : Headers :=
  (k, v) :: headersDrop h k

/-! ### context.Context -/

/-- Context keys.  `correlationIDKey` embeds the package's private key
`CorrelationIDKey` (of the private type `ctxKeyCorrelationID`); `otherKey n`
stands for any other key another package may have used. -/
inductive CtxKey where
  | correlationIDKey : CtxKey
  | otherKey : Nat → CtxKey
deriving DecidableEq, Repr

/-- Dynamically typed values stored in a context (`interface{}`). -/
inductive GoValue where
  | str : String → GoValue
  | int : Int → GoValue
  | boolean : Bool → GoValue
deriving DecidableEq, Repr

abbrev Context := List (CtxKey × GoValue)

/-- `context.Context.Value`: nearest (most recently attached) binding wins. -/
def ctxValue : Context → CtxKey → Option GoValue
  | [], _ => none
  | p :: t, k => if p.1 = k then some p.2 else ctxValue t k

/-- `context.WithValue`: child node consulted before the parent. -/
def ctxWithValue (c : Context) (k : CtxKey) (v : GoValue) : Context :=
  (k, v) :: c

/-! ### UUIDs (github.com/google/uuid) -/

/-- A UUID as produced by `uuid.New()`: 16 raw bytes.  The list is the
randomness drawn from the generator; bytes are read with `byteAt` so any
list denotes a UUID. -/
structure UUID where
  bytes : List Nat
deriving DecidableEq, Repr

def UUID.byteAt (u : UUID) (i : Nat) : Nat := (u.bytes.getD i 0) % 256

/-- Lowercase hex digit. -/
def hexChar (n : Nat) : Char :=
  if n % 16 < 10 then Char.ofNat (48 + n % 16) else Char.ofNat (87 + n % 16)

/-- Two lowercase hex digits of one byte. -/
def hexPair (b : Nat) : List Char :=
  [hexChar (b / 16), hexChar b]

/-- `uuid.UUID.String()`: `xxxxxxxx-xxxx-xxxx-xxxx-xxxxxxxxxxxx`
(hex of bytes 0-3, 4-5, 6-7, 8-9, 10-15, hyphen-separated). -/
def UUID.toStr (u : UUID) : String :=
  String.mk (hexPair (u.byteAt 0) ++ hexPair (u.byteAt 1) ++ hexPair (u.byteAt 2)
    ++ hexPair (u.byteAt 3) ++ ['-'] ++ hexPair (u.byteAt 4) ++ hexPair (u.byteAt 5)
    ++ ['-'] ++ hexPair (u.byteAt 6) ++ hexPair (u.byteAt 7)
    ++ ['-'] ++ hexPair (u.byteAt 8) ++ hexPair (u.byteAt 9)
    ++ ['-'] ++ hexPair (u.byteAt 10) ++ hexPair (u.byteAt 11) ++ hexPair (u.byteAt 12)
    ++ hexPair (u.byteAt 13) ++ hexPair (u.byteAt 14) ++ hexPair (u.byteAt 15))

/-! ### Requests and response writers -/

/-- The parts of `*http.Request` the package reads. -/
structure Request where
  method : String
  urlPath : String
  remoteAddr : String
  headers : Headers
  context : Context
deriving DecidableEq, Repr

/-- The underlying `http.ResponseWriter` (e.g. `httptest.NewRecorder()`):
response headers, the status passed to `WriteHeader`, and the body. -/
structure BaseWriter where
  headers : Headers
  status : Nat
  body : String
deriving DecidableEq, Repr

def BaseWriter.writeHeaderB (w : BaseWriter) (code : Nat) : BaseWriter :=
  { w with status := code }

/-- `Write` on the underlying writer: appends and returns `len(buf)`. -/
def BaseWriter.writeB (w : BaseWriter) (s : String) : BaseWriter × Nat :=
  ({ w with body := w.body ++ s }, s.length)

/-- A handler over the raw writer (`http.Handler` as seen outside
`RequestLogger`). -/
abbrev HandlerB := Request → BaseWriter → BaseWriter

/-! ### CorrelationID middleware and accessor (middleware.go) -/

/-- Initial value of the exported global `var CorrelationIDHeader`. -/
def defaultCorrelationIDHeader : String := "X-Correlation-ID"

/-- The state `CorrelationID`'s closure has built right before
`next.ServeHTTP(w, r)`: the request with the correlation ID attached to
its context, and the writer with the response header set.
`hdr` is the current value of `CorrelationIDHeader`; `gen` is the UUID
`uuid.New()` would return on this request. -/
def correlationIDTransform (hdr : String) (gen : UUID) (r : Request) (w : BaseWriter) :
    Request × BaseWriter :=
  let correlationID := headersGet r.headers hdr
  let correlationID := if correlationID = "" then gen.toStr else correlationID
  let r := { r with context := ctxWithValue r.context .correlationIDKey (.str correlationID) }
  let w := { w with headers := headersSet w.headers hdr correlationID }
  (r, w)

/-- `CorrelationID`: sets or propagates a correlation ID, then delegates. -/
def CorrelationID (hdr : String) (gen : UUID) (next : HandlerB) : HandlerB :=
  fun r w =>
    let t := correlationIDTransform hdr gen r w
    next t.1 t.2

/-- `GetCorrID`: the context value under `CorrelationIDKey` if it is a
string, else `""`. -/
def GetCorrID (ctx : Context) : String :=
  match ctxValue ctx .correlationIDKey with
  | some (.str val) => val
  | _ => ""

/-! ### chi's WrapResponseWriter (basicWriter) -/

/-- `middleware.WrapResponseWriter` in its `basicWriter` form: the wrapped
writer plus the recorded status code, the wrote-header flag and the byte
count. -/
structure WrapWriter where
  base : BaseWriter
  wroteHeader : Bool
  code : Nat
  bytes : Nat
deriving DecidableEq, Repr

/-- `middleware.NewWrapResponseWriter`: fresh wrapper around `w`
(zero-valued `code`, `bytes`, `wroteHeader`). -/
def NewWrapResponseWriter (w : BaseWriter) : WrapWriter :=
  { base := w, wroteHeader := false, code := 0, bytes := 0 }

/-- `basicWriter.WriteHeader`: records the code and forwards it, only the
first time. -/
def WrapWriter.writeHeaderW (b : WrapWriter) (code : Nat) : WrapWriter :=
  if b.wroteHeader then b
  else { b with code := code, wroteHeader := true, base := b.base.writeHeaderB code }

/-- `basicWriter.maybeWriteHeader`: implicit `WriteHeader(200)` before the
first body write. -/
def WrapWriter.maybeWriteHeaderW (b : WrapWriter) : WrapWriter :=
  if b.wroteHeader then b else b.writeHeaderW 200

/-- `basicWriter.Write`: maybe write the header, forward the bytes, add the
reported length to the count. -/
def WrapWriter.writeW (b : WrapWriter) (s : String) : WrapWriter :=
  let b := b.maybeWriteHeaderW
  let wn := b.base.writeB s
  { b with base := wn.1, bytes := b.bytes + wn.2 }

/-- A handler over the wrapped writer (what `RequestLogger` passes down). -/
abbrev HandlerW := Request → WrapWriter → WrapWriter

/-- The writer operations a downstream handler may perform, used to range
over "a handler that writes these things in this order". -/
inductive WOp where
  | writeHeaderOp : Nat → WOp
  | writeOp : String → WOp
deriving DecidableEq, Repr

def runWOps : List WOp → WrapWriter → WrapWriter
  | [], b => b
  | .writeHeaderOp c :: t, b => runWOps t (b.writeHeaderW c)
  | .writeOp s :: t, b => runWOps t (b.writeW s)

/-- Total bytes a list of operations writes. -/
def wopsBytes : List WOp → Nat
  | [] => 0
  | .writeHeaderOp _ :: t => wopsBytes t
  | .writeOp s :: t => s.length + wopsBytes t

/-- The status a non-empty operation list yields under HTTP default-status
semantics: the first operation either sets an explicit code or is a body
write, which commits the default 200; later `WriteHeader` calls are
ignored. -/
def wopsStatus : List WOp → Nat
  | [] => 0
  | .writeHeaderOp c :: _ => c
  | .writeOp _ :: _ => 200

/-! ### RequestLogger (middleware.go) -/

/-- One structured record emitted by `logger.Info("request", ...)`; its
fields are exactly the seven attributes passed to `slog`. -/
structure LogRecord where
  method : String
  path : String
  status : Nat
  bytes : Nat
  remote : String
  correlation_id : String
  duration : Nat
deriving DecidableEq, Repr

/-- `slog.Logger.Info` on a structured sink: appends one record. -/
def loggerInfo (log : List LogRecord) (rec : LogRecord) : List LogRecord :=
  log ++ [rec]

/-- `RequestLogger(logger)(next)` applied to one request: wraps the writer,
runs the downstream chain, then emits exactly one record from the final
wrapper state.  `log` is the records the sink held before the request and
`dur` the elapsed time `time.Since(start)` observes. -/
def RequestLogger (next : HandlerW) (r : Request) (w : BaseWriter)
    (log : List LogRecord) (dur : Nat) : BaseWriter × List LogRecord :=
  let ww := NewWrapResponseWriter w
  let ww := next r ww
  (ww.base, loggerInfo log
    { method := r.method
      path := r.urlPath
      status := ww.code
      bytes := ww.bytes
      remote := r.remoteAddr
      correlation_id := GetCorrID r.context
      duration := dur })

/-! ### Server construction and lifecycle (Config, NewServer, Run) -/

/-- An opaque `*slog.Logger` handle; `none` models a nil pointer. -/
structure Logger where
  handle : Nat
deriving DecidableEq, Repr

/-- `slog.Default()`. -/
def slogDefault : Logger := { handle := 0 }

/-- `Config`: listen address and (possibly nil) logger. -/
structure Config where
  addr : String
  logger : Option Logger
deriving DecidableEq, Repr

/-- `Server`: the `http.Server`'s address, the logger stored on the struct,
and the logger handed to the `RequestLogger` middleware in the chain. -/
structure Server where
  addr : String
  logger : Option Logger
  requestLoggerArg : Option Logger
deriving DecidableEq, Repr

/-- `NewServer`: defaults a nil `cfg.Logger` to `slog.Default()`, builds the
router with `RequestLogger(cfg.Logger)` in the middleware chain, and stores
`cfg.Logger` on the server. -/
def NewServer (cfg : Config) : Server :=
  let cfg := if cfg.logger = none then { cfg with logger := some slogDefault } else cfg
  { addr := cfg.addr, logger := cfg.logger, requestLoggerArg := cfg.logger }

/-- Go errors relevant to `Run`. -/
inductive GoError where
  /-- `http.ErrServerClosed`, returned by `ListenAndServe` after `Shutdown`. -/
  | errServerClosed : GoError
  /-- Any other error, e.g. a bind failure for an unparseable address. -/
  | otherErr : String → GoError
  /-- `fmt.Errorf("msg: %w", inner)`. -/
  | wrapped : String → GoError → GoError
deriving DecidableEq, Repr

/-- `time.Second` in nanoseconds. -/
def timeSecond : Nat := 1000000000

/-- Capacity of `errCh := make(chan error, 1)` in `Run`. -/
def errChCap : Nat := 1

/-- A buffered Go channel of errors. -/
structure Chan where
  cap : Nat
  buf : List GoError
deriving DecidableEq, Repr

/-- A non-blocking view of `ch <- e`: `some` of the new channel state when
the buffer has room, `none` when the send would block. -/
def chanSend (c : Chan) (e : GoError) : Option Chan :=
  if c.buf.length < c.cap then some { c with buf := c.buf ++ [e] } else none

def chanSendAll : Chan → List GoError → Option Chan
  | c, [] => some c
  | c, e :: es =>
    match chanSend c e with
    | some c => chanSendAll c es
    | none => none

/-- What the background goroutine sends on `errCh`, given the error
`ListenAndServe` terminated with (`none` = still serving): the error is
sent only when it is non-nil and not `http.ErrServerClosed`. -/
def goroutineSends (listenErr : Option GoError) : List GoError :=
  match listenErr with
  | some e => if e = GoError.errServerClosed then [] else [e]
  | none => []

/-- Whether `errCh` holds a value at the `select`, and which. -/
def errChValue (listenErr : Option GoError) : Option GoError :=
  match listenErr with
  | some e => if e = GoError.errServerClosed then none else some e
  | none => none

/-- The two cases of `Run`'s `select`. -/
inductive SelectBranch where
  | cancelBranch : SelectBranch
  | listenerErrBranch : SelectBranch
deriving DecidableEq, Repr

/-- One execution environment for `Run`: the error the listener goroutine
terminated with (if it terminated before the `select` resolved), whether
the input context's `Done` channel is closed, the scheduler's choice when
both `select` cases are ready (Go chooses pseudo-randomly), and the error
`httpServer.Shutdown` returns (`none` = nil). -/
structure RunEnv where
  listenErr : Option GoError
  ctxDone : Bool
  choice : SelectBranch
  shutdownErr : Option GoError
deriving DecidableEq, Repr

/-- Observable outcome of a `Run` invocation that returned. -/
structure RunResult where
  /-- Which `select` case executed. -/
  branch : SelectBranch
  /-- `Run`'s return value (`none` = nil error). -/
  returned : Option GoError
  /-- `some t` iff `httpServer.Shutdown` was invoked, with a context whose
  timeout is `t` nanoseconds. -/
  shutdownTimeout : Option Nat
deriving DecidableEq, Repr

/-- The `case <-ctx.Done():` arm: shutdown with a 5-second timeout; wrap a
shutdown error, otherwise fall through to `return nil`. -/
def runCancelCase (env : RunEnv) : RunResult :=
  { branch := .cancelBranch
    shutdownTimeout := some (5 * timeSecond)
    returned :=
      match env.shutdownErr with
      | some e => some (.wrapped "shutdown" e)
      | none => none }

/-- The `case err := <-errCh:` arm: wrap the listener error. -/
def runErrCase (e : GoError) : RunResult :=
  { branch := .listenerErrBranch
    shutdownTimeout := none
    returned := some (.wrapped "server error" e) }

/-- `Server.Run` under environment `env`: resolve the `select` over
`ctx.Done()` and `errCh`; `none` means neither case ever becomes ready and
`Run` blocks forever. -/
def Run (env : RunEnv) : Option RunResult :=
  match errChValue env.listenErr, env.ctxDone with
  | some e, true =>
    some (match env.choice with
      | .cancelBranch => runCancelCase env
      | .listenerErrBranch => runErrCase e)
  | none, true => some (runCancelCase env)
  | some e, false => some (runErrCase e)
  | none, false => none

/-! ### Helper lemmas -/

theorem mk_cons_ne_empty (a : Char) (t : List Char) : String.mk (a :: t) ≠ "" :=
  fun h => List.cons_ne_nil a t (congrArg String.data h)

theorem UUID.toStr_ne_empty (u : UUID) : u.toStr ≠ "" := by
  unfold UUID.toStr
  simp only [hexPair, List.cons_append]
  exact mk_cons_ne_empty _ _

theorem headersGet_drop (hs : Headers) (k k2 : String) (hne : k2 ≠ k) :
    headersGet (headersDrop hs k) k2 = headersGet hs k2 := by
  induction hs with
  | nil => rfl
  | cons p t ih =>
    by_cases hp : p.1 = k
    · have hk : ¬ k = k2 := fun hh => hne hh.symm
      simp [headersDrop, headersGet, hp, hk, ih]
    · simp [headersDrop, headersGet, hp, ih]

theorem headersGet_set_same (hs : Headers) (k v : String) :
    headersGet (headersSet hs k v) k = v := by
  simp [headersSet, headersGet]

theorem headersGet_set_other (hs : Headers) (k v k2 : String) (hne : k2 ≠ k) :
    headersGet (headersSet hs k v) k2 = headersGet hs k2 := by
  have : ¬ k = k2 := fun hh => hne hh.symm
  simp [headersSet, headersGet, this, headersGet_drop hs k k2 hne]

theorem getCorrID_withValue (c : Context) (s : String) :
    GetCorrID (ctxWithValue c .correlationIDKey (.str s)) = s := by
  simp [GetCorrID, ctxWithValue, ctxValue]

theorem writeHeaderW_bytes (b : WrapWriter) (c : Nat) :
    (b.writeHeaderW c).bytes = b.bytes := by
  unfold WrapWriter.writeHeaderW
  split <;> rfl

theorem writeW_bytes (b : WrapWriter) (s : String) :
    (b.writeW s).bytes = b.bytes + s.length := by
  unfold WrapWriter.writeW BaseWriter.writeB WrapWriter.maybeWriteHeaderW
  split <;> simp [writeHeaderW_bytes]

theorem writeHeaderW_wrote (b : WrapWriter) (c : Nat) (h : b.wroteHeader = true) :
    b.writeHeaderW c = b := by
  simp [WrapWriter.writeHeaderW, h]

theorem writeW_wrote (b : WrapWriter) (s : String) (h : b.wroteHeader = true) :
    (b.writeW s).code = b.code ∧ (b.writeW s).wroteHeader = true := by
  simp [WrapWriter.writeW, WrapWriter.maybeWriteHeaderW, h]

theorem runWOps_bytes (ops : List WOp) (b : WrapWriter) :
    (runWOps ops b).bytes = b.bytes + wopsBytes ops := by
  induction ops generalizing b with
  | nil => simp [runWOps, wopsBytes]
  | cons op t ih =>
    cases op with
    | writeHeaderOp c => simp [runWOps, wopsBytes, ih, writeHeaderW_bytes]
    | writeOp s =>
      simp [runWOps, wopsBytes, ih, writeW_bytes]
      omega

theorem runWOps_code_wrote (ops : List WOp) (b : WrapWriter) (h : b.wroteHeader = true) :
    (runWOps ops b).code = b.code := by
  induction ops generalizing b with
  | nil => rfl
  | cons op t ih =>
    cases op with
    | writeHeaderOp c => rw [runWOps, writeHeaderW_wrote b c h, ih b h]
    | writeOp s =>
      have hw := writeW_wrote b s h
      rw [runWOps, ih _ hw.2, hw.1]

theorem runWOps_code_fresh (ops : List WOp) (b : WrapWriter) (h : b.wroteHeader = false)
    (hne : ops ≠ []) : (runWOps ops b).code = wopsStatus ops := by
  cases ops with
  | nil => exact absurd rfl hne
  | cons op t =>
    cases op with
    | writeHeaderOp c =>
      have hc : (b.writeHeaderW c).code = c ∧ (b.writeHeaderW c).wroteHeader = true := by
        simp [WrapWriter.writeHeaderW, h]
      rw [runWOps, runWOps_code_wrote t _ hc.2, hc.1, wopsStatus]
    | writeOp s =>
      have hc : (b.writeW s).code = 200 ∧ (b.writeW s).wroteHeader = true := by
        simp [WrapWriter.writeW, WrapWriter.maybeWriteHeaderW, WrapWriter.writeHeaderW, h]
      rw [runWOps, runWOps_code_wrote t _ hc.2, hc.1, wopsStatus]

/-! ### Claim theorems -/

/-- C1: for every inbound request processed by the CorrelationID
middleware, the context value readable via `GetCorrID` equals the inbound
header value when that is non-empty (verbatim, independent of the
generator) and equals the freshly generated UUID string otherwise; the
response-header value equals the context value, and the value is
non-empty; the middleware then runs `next` on exactly this state. -/
theorem correlationID_ensures_id (hdr : String) (gen : UUID) (r : Request) (w : BaseWriter) :
    GetCorrID (correlationIDTransform hdr gen r w).1.context =
      (if headersGet r.headers hdr = "" then gen.toStr else headersGet r.headers hdr) ∧
    headersGet (correlationIDTransform hdr gen r w).2.headers hdr =
      GetCorrID (correlationIDTransform hdr gen r w).1.context ∧
    GetCorrID (correlationIDTransform hdr gen r w).1.context ≠ "" ∧
    (headersGet r.headers hdr ≠ "" →
      ∀ gen2 : UUID, correlationIDTransform hdr gen2 r w = correlationIDTransform hdr gen r w) ∧
    (∀ next : HandlerB, CorrelationID hdr gen next r w =
      next (correlationIDTransform hdr gen r w).1 (correlationIDTransform hdr gen r w).2) := by
  unfold correlationIDTransform
  by_cases hin : headersGet r.headers hdr = ""
  · refine ⟨?_, ?_, ?_, ?_, ?_⟩
    · simp [hin, getCorrID_withValue]
    · simp [hin, getCorrID_withValue, headersGet_set_same]
    · simp [hin, getCorrID_withValue, UUID.toStr_ne_empty]
    · intro hcon
      exact absurd hin hcon
    · intro next
      rfl
  · refine ⟨?_, ?_, ?_, ?_, ?_⟩
    · simp [hin, getCorrID_withValue]
    · simp [hin, getCorrID_withValue, headersGet_set_same]
    · simp [hin, getCorrID_withValue]
    · intro _ gen2
      simp [hin]
    · intro next
      rfl

/-- C1 witness: with the inbound header "corr-A" present the adopted value
is "corr-A"; a second application with an absent header adopts the
generated UUID string. -/
theorem correlationID_ensures_id_witness :
    (headersGet [("X-Correlation-ID", "corr-A")] "X-Correlation-ID" ≠ "") ∧
    GetCorrID (correlationIDTransform "X-Correlation-ID" ⟨[]⟩
      ⟨"GET", "/test", "192.0.2.1:5", [("X-Correlation-ID", "corr-A")], []⟩
      ⟨[], 0, ""⟩).1.context = "corr-A" ∧
    GetCorrID (correlationIDTransform "X-Correlation-ID" ⟨[]⟩
      ⟨"GET", "/test", "192.0.2.1:5", [], []⟩ ⟨[], 0, ""⟩).1.context =
      (⟨[]⟩ : UUID).toStr := by
  refine ⟨by decide, ?_, ?_⟩
  · have h := correlationID_ensures_id "X-Correlation-ID" ⟨[]⟩
      ⟨"GET", "/test", "192.0.2.1:5", [("X-Correlation-ID", "corr-A")], []⟩ ⟨[], 0, ""⟩
    exact h.1.trans (by decide)
  · have h := correlationID_ensures_id "X-Correlation-ID" ⟨[]⟩
      ⟨"GET", "/test", "192.0.2.1:5", [], []⟩ ⟨[], 0, ""⟩
    exact h.1.trans (by simp [headersGet])

/-- C6: `GetCorrID` is total; it returns the stored string when the
context holds a string under the correlation key, and the empty string
both when the key is absent and when the stored value is not a string. -/
theorem getCorrID_total (ctx : Context) :
    (∀ s, ctxValue ctx .correlationIDKey = some (.str s) → GetCorrID ctx = s) ∧
    (ctxValue ctx .correlationIDKey = none → GetCorrID ctx = "") ∧
    (∀ v, ctxValue ctx .correlationIDKey = some v → (∀ s, v ≠ .str s) →
      GetCorrID ctx = "") := by
  refine ⟨?_, ?_, ?_⟩
  · intro s h
    simp [GetCorrID, h]
  · intro h
    simp [GetCorrID, h]
  · intro v h hv
    cases v with
    | str s => exact absurd rfl (hv s)
    | int n => simp [GetCorrID, h]
    | boolean b => simp [GetCorrID, h]

/-- C6 witness: an empty context, a context holding a non-string value,
and a context holding a string all yield the documented results. -/
theorem getCorrID_total_witness :
    GetCorrID [] = "" ∧
    GetCorrID [(CtxKey.correlationIDKey, GoValue.int 12345)] = "" ∧
    GetCorrID [(CtxKey.correlationIDKey, GoValue.str "test-id-789")] = "test-id-789" := by
  refine ⟨?_, ?_, ?_⟩
  · exact (getCorrID_total []).2.1 (by decide)
  · exact (getCorrID_total [(CtxKey.correlationIDKey, GoValue.int 12345)]).2.2
      (GoValue.int 12345) (by decide) (fun s => by simp)
  · exact (getCorrID_total [(CtxKey.correlationIDKey, GoValue.str "test-id-789")]).1
      "test-id-789" (by decide)

/-- C7: with the process-wide header-name variable set to
"X-Custom-Request-ID", the middleware reads the inbound value from that
name only (changing the default-named request header changes nothing
observable) and writes the outbound value to that name only (the
default-named response header is left untouched). -/
theorem correlationID_custom_header_exclusive (gen : UUID) (r : Request) (w : BaseWriter)
    (v : String) :
    GetCorrID (correlationIDTransform "X-Custom-Request-ID" gen
        { r with headers := headersSet r.headers defaultCorrelationIDHeader v } w).1.context =
      GetCorrID (correlationIDTransform "X-Custom-Request-ID" gen r w).1.context ∧
    (correlationIDTransform "X-Custom-Request-ID" gen
        { r with headers := headersSet r.headers defaultCorrelationIDHeader v } w).2 =
      (correlationIDTransform "X-Custom-Request-ID" gen r w).2 ∧
    headersGet (correlationIDTransform "X-Custom-Request-ID" gen r w).2.headers
        "X-Custom-Request-ID" =
      GetCorrID (correlationIDTransform "X-Custom-Request-ID" gen r w).1.context ∧
    headersGet (correlationIDTransform "X-Custom-Request-ID" gen r w).2.headers
        defaultCorrelationIDHeader =
      headersGet w.headers defaultCorrelationIDHeader := by
  have hdiff : ("X-Custom-Request-ID" : String) ≠ defaultCorrelationIDHeader := by
    decide
  have hread : headersGet (headersSet r.headers defaultCorrelationIDHeader v)
      "X-Custom-Request-ID" = headersGet r.headers "X-Custom-Request-ID" :=
    headersGet_set_other r.headers defaultCorrelationIDHeader v "X-Custom-Request-ID" hdiff
  refine ⟨?_, ?_, ?_, ?_⟩
  · simp [correlationIDTransform, getCorrID_withValue, hread]
  · simp [correlationIDTransform, hread]
  · simp [correlationIDTransform, getCorrID_withValue, headersGet_set_same]
  · simp [correlationIDTransform]
    exact headersGet_set_other w.headers "X-Custom-Request-ID" _ defaultCorrelationIDHeader
      (fun hh => hdiff hh.symm)

/-- C4: for every request, `RequestLogger` appends exactly one record to
the log, strictly after the downstream chain has returned (its status and
bytes fields are those of the final wrapped-writer state), containing
exactly the seven fields of `LogRecord`; the correlation_id field is
present and equals `""` when the context lacks the correlation key. -/
theorem requestLogger_one_record (next : HandlerW) (r : Request) (w : BaseWriter)
    (log : List LogRecord) (dur : Nat) :
    (RequestLogger next r w log dur).2 =
      log ++ [{ method := r.method
                path := r.urlPath
                status := (next r (NewWrapResponseWriter w)).code
                bytes := (next r (NewWrapResponseWriter w)).bytes
                remote := r.remoteAddr
                correlation_id := GetCorrID r.context
                duration := dur }] ∧
    (RequestLogger next r w log dur).2.length = log.length + 1 ∧
    (ctxValue r.context .correlationIDKey = none → GetCorrID r.context = "") := by
  refine ⟨rfl, ?_, ?_⟩
  · simp [RequestLogger, loggerInfo]
  · intro h
    simp [GetCorrID, h]

/-- C4 witness: a request with no correlation key logs exactly one record
whose correlation_id field is the empty string. -/
theorem requestLogger_one_record_witness :
    (ctxValue ([] : Context) .correlationIDKey = none) ∧
    (RequestLogger (fun _ ww => ww.writeHeaderW 404)
        ⟨"GET", "/not-found", "203.0.113.9:77", [], []⟩ ⟨[], 0, ""⟩ [] 3).2 =
      [{ method := "GET", path := "/not-found", status := 404, bytes := 0,
         remote := "203.0.113.9:77", correlation_id := "", duration := 3 }] := by
  refine ⟨by decide, ?_⟩
  have h := requestLogger_one_record (fun _ ww => ww.writeHeaderW 404)
    ⟨"GET", "/not-found", "203.0.113.9:77", [], []⟩ ⟨[], 0, ""⟩ [] 3
  exact h.1.trans (by decide)

/-- C5: a downstream handler performing a non-empty sequence of writer
operations yields a log record whose bytes field is the total bytes
written and whose status field is the first explicitly set code, or 200
committed by the first body write when no code was set before it. -/
theorem requestLogger_status_bytes (ops : List WOp) (r : Request) (w : BaseWriter)
    (log : List LogRecord) (dur : Nat) (hne : ops ≠ []) :
    (RequestLogger (fun _ ww => runWOps ops ww) r w log dur).2 =
      log ++ [{ method := r.method
                path := r.urlPath
                status := wopsStatus ops
                bytes := wopsBytes ops
                remote := r.remoteAddr
                correlation_id := GetCorrID r.context
                duration := dur }] := by
  have hc := runWOps_code_fresh ops (NewWrapResponseWriter w) rfl hne
  have hb := runWOps_bytes ops (NewWrapResponseWriter w)
  simp [NewWrapResponseWriter] at hc hb
  simp [RequestLogger, loggerInfo, NewWrapResponseWriter, hc, hb]

/-- C5 witness: a handler that writes "Hello, World!" with no explicit
status yields bytes 13 and status 200. -/
theorem requestLogger_status_bytes_witness :
    ([WOp.writeOp "Hello, World!"] ≠ ([] : List WOp)) ∧
    (RequestLogger (fun _ ww => runWOps [WOp.writeOp "Hello, World!"] ww)
        ⟨"GET", "/", "127.0.0.1:1234", [], []⟩ ⟨[], 0, ""⟩ [] 7).2 =
      [{ method := "GET", path := "/", status := 200, bytes := 13,
         remote := "127.0.0.1:1234", correlation_id := "", duration := 7 }] := by
  refine ⟨by decide, ?_⟩
  have h := requestLogger_status_bytes [WOp.writeOp "Hello, World!"]
    ⟨"GET", "/", "127.0.0.1:1234", [], []⟩ ⟨[], 0, ""⟩ [] 7 (by decide)
  exact h.trans (by decide)

/-- C2: whenever `Run` returns via the cancellation branch (including an
input context already cancelled at invocation), graceful shutdown is
invoked with a timeout of exactly 5 seconds; a nil drain result makes
`Run` return nil and a drain error is returned wrapped with "shutdown"
context. -/
theorem run_cancel_branch_shutdown (env : RunEnv) (res : RunResult)
    (h : Run env = some res) (hb : res.branch = SelectBranch.cancelBranch) :
    res.shutdownTimeout = some (5 * timeSecond) ∧
    (env.shutdownErr = none → res.returned = none) ∧
    (∀ e, env.shutdownErr = some e →
      res.returned = some (GoError.wrapped "shutdown" e)) := by
  obtain ⟨le, cd, ch, se⟩ := env
  rcases hev : errChValue le with _ | e <;> cases cd <;>
      simp only [Run, hev] at h
  · exact absurd h (by simp)
  · rw [Option.some_inj] at h
    subst h
    refine ⟨rfl, ?_, ?_⟩
    · intro hse
      have hse2 : se = none := hse
      subst hse2
      rfl
    · intro e hse
      have hse2 : se = some e := hse
      subst hse2
      rfl
  · rw [Option.some_inj] at h
    subst h
    exact absurd hb (by simp [runErrCase])
  · cases ch <;> rw [Option.some_inj] at h <;> subst h
    · refine ⟨rfl, ?_, ?_⟩
      · intro hse
        have hse2 : se = none := hse
        subst hse2
        rfl
      · intro e hse
        have hse2 : se = some e := hse
        subst hse2
        rfl
    · exact absurd hb (by simp [runErrCase])

/-- C2 witness: an already-cancelled context with a quiet listener and a
clean drain makes `Run` perform a 5-second-bounded shutdown and return
nil; with a failing drain it returns the wrapped shutdown error. -/
theorem run_cancel_branch_shutdown_witness :
    (Run ⟨none, true, SelectBranch.cancelBranch, none⟩ =
      some { branch := SelectBranch.cancelBranch, returned := none,
             shutdownTimeout := some (5 * timeSecond) }) ∧
    ({ branch := SelectBranch.cancelBranch, returned := none,
       shutdownTimeout := some (5 * timeSecond) } : RunResult).shutdownTimeout =
      some (5 * timeSecond) ∧
    ({ branch := SelectBranch.cancelBranch, returned := none,
       shutdownTimeout := some (5 * timeSecond) } : RunResult).returned = none := by
  have h := run_cancel_branch_shutdown ⟨none, true, SelectBranch.cancelBranch, none⟩
    { branch := SelectBranch.cancelBranch, returned := none,
      shutdownTimeout := some (5 * timeSecond) } (by decide) (by decide)
  exact ⟨by decide, h.1, h.2.1 (by decide)⟩

/-- C3: a listener failure other than `http.ErrServerClosed`, with the
cancellation signal not fired, makes `Run` return that error wrapped with
"server error" context without attempting shutdown; the deliberate
`ErrServerClosed` termination is filtered and never reported. -/
theorem run_listener_error_surfaced (env : RunEnv) (e : GoError)
    (hl : env.listenErr = some e) (hne : e ≠ GoError.errServerClosed)
    (hc : env.ctxDone = false) :
    Run env = some { branch := SelectBranch.listenerErrBranch,
                     returned := some (GoError.wrapped "server error" e),
                     shutdownTimeout := none } ∧
    (∀ env2 : RunEnv, env2.listenErr = some GoError.errServerClosed →
      env2.ctxDone = false → Run env2 = none) := by
  constructor
  · obtain ⟨le, cd, ch, se⟩ := env
    simp only at hl hc
    subst hl hc
    have hev : errChValue (some e) = some e := by
      simp [errChValue, hne]
    simp [Run, hev, runErrCase]
  · intro env2 hl2 hc2
    obtain ⟨le, cd, ch, se⟩ := env2
    simp only at hl2 hc2
    subst hl2 hc2
    simp [Run, errChValue]

/-- C3 witness: a bind failure for an unparseable listen address, with no
cancellation, surfaces from `Run` wrapped with "server error". -/
theorem run_listener_error_surfaced_witness :
    ((⟨some (GoError.otherErr "listen tcp: address bad:address:str: too many colons"),
        false, SelectBranch.cancelBranch, none⟩ : RunEnv).listenErr =
      some (GoError.otherErr "listen tcp: address bad:address:str: too many colons")) ∧
    (GoError.otherErr "listen tcp: address bad:address:str: too many colons" ≠
      GoError.errServerClosed) ∧
    Run ⟨some (GoError.otherErr "listen tcp: address bad:address:str: too many colons"),
         false, SelectBranch.cancelBranch, none⟩ =
      some { branch := SelectBranch.listenerErrBranch,
             returned := some (GoError.wrapped "server error"
               (GoError.otherErr "listen tcp: address bad:address:str: too many colons")),
             shutdownTimeout := none } := by
  have h := run_listener_error_surfaced
    ⟨some (GoError.otherErr "listen tcp: address bad:address:str: too many colons"),
      false, SelectBranch.cancelBranch, none⟩
    (GoError.otherErr "listen tcp: address bad:address:str: too many colons")
    (by decide) (by decide) (by decide)
  exact ⟨by decide, by decide, h.1⟩

/-- C8: the error channel `Run` creates has capacity at least 1, so the
background goroutine's at-most-one error send completes without blocking
even with no receiver left. -/
theorem errCh_capacity_send_nonblocking (listenErr : Option GoError) :
    1 ≤ errChCap ∧
    (chanSendAll { cap := errChCap, buf := [] } (goroutineSends listenErr)).isSome = true := by
  refine ⟨by decide, ?_⟩
  cases listenErr with
  | none => rfl
  | some e =>
    by_cases he : e = GoError.errServerClosed <;>
      simp [goroutineSends, chanSendAll, chanSend, errChCap, he]

/-- C10: `NewServer` substitutes the process default logger for a nil
config logger, so the constructed server's logger is never nil and the
`RequestLogger` middleware receives that same non-nil logger. -/
theorem newServer_logger_default (cfg : Config) :
    (NewServer cfg).logger = some (cfg.logger.getD slogDefault) ∧
    (NewServer cfg).logger ≠ none ∧
    (NewServer cfg).requestLoggerArg = (NewServer cfg).logger := by
  obtain ⟨addr, lg⟩ := cfg
  cases lg <;> simp [NewServer]

/-- C9 counterexample: with the listener's terminal error already on the
error channel and the cancellation signal also fired, the select's
pseudo-random choice can take the shutdown branch, making `Run` return
nil instead of the "server error" wrap — the listener-error branch does
not always determine the outcome. -/
theorem run_both_ready_cancel_counterexample :
    errChValue (some (GoError.otherErr "accept: connection reset")) =
      some (GoError.otherErr "accept: connection reset") ∧
    Run ⟨some (GoError.otherErr "accept: connection reset"), true,
         SelectBranch.cancelBranch, none⟩ =
      some { branch := SelectBranch.cancelBranch, returned := none,
             shutdownTimeout := some (5 * timeSecond) } := by
  constructor <;> rfl

/-- C9 (amended): exactly one branch executes its effects per invocation
(graceful shutdown is invoked iff the cancellation branch executed, and a
"server error" wrap is returned iff the listener-error branch executed);
whenever the listener has reported a terminal error and the cancellation
signal has not fired, `Run` surfaces that error wrapping "server error";
when both are ready, the select's pseudo-random choice decides the
branch. -/
theorem run_branch_mutual_exclusion (env : RunEnv) (res : RunResult)
    (h : Run env = some res) :
    ((res.branch = SelectBranch.cancelBranch ∧
        res.shutdownTimeout = some (5 * timeSecond)) ∨
     (res.branch = SelectBranch.listenerErrBranch ∧ res.shutdownTimeout = none ∧
        ∃ e, errChValue env.listenErr = some e ∧
          res.returned = some (GoError.wrapped "server error" e))) ∧
    (env.ctxDone = false → ∀ e, errChValue env.listenErr = some e →
      res.returned = some (GoError.wrapped "server error" e)) := by
  obtain ⟨le, cd, ch, se⟩ := env
  rcases hev : errChValue le with _ | e <;> cases cd <;>
      simp only [Run, hev] at h
  · exact absurd h (by simp)
  · rw [Option.some_inj] at h
    subst h
    refine ⟨Or.inl ⟨rfl, rfl⟩, ?_⟩
    intro hcd
    have hcd2 : (true : Bool) = false := hcd
    simp at hcd2
  · rw [Option.some_inj] at h
    subst h
    refine ⟨Or.inr ⟨rfl, rfl, e, rfl, rfl⟩, ?_⟩
    intro _ e2 he2
    have he3 : e2 = e := (Option.some_inj.mp he2).symm
    subst he3
    rfl
  · cases ch <;> rw [Option.some_inj] at h <;> subst h
    · refine ⟨Or.inl ⟨rfl, rfl⟩, ?_⟩
      intro hcd
      have hcd2 : (true : Bool) = false := hcd
      simp at hcd2
    · refine ⟨Or.inr ⟨rfl, rfl, e, rfl, rfl⟩, ?_⟩
      intro hcd
      have hcd2 : (true : Bool) = false := hcd
      simp at hcd2

/-- C9 amended-theorem witness: a listener failure with no cancellation is
surfaced wrapping "server error". -/
theorem run_branch_mutual_exclusion_witness :
    (Run ⟨some (GoError.otherErr "accept: fd closed"), false,
          SelectBranch.listenerErrBranch, none⟩ =
      some { branch := SelectBranch.listenerErrBranch,
             returned := some (GoError.wrapped "server error"
               (GoError.otherErr "accept: fd closed")),
             shutdownTimeout := none }) ∧
    ({ branch := SelectBranch.listenerErrBranch,
       returned := some (GoError.wrapped "server error"
         (GoError.otherErr "accept: fd closed")),
       shutdownTimeout := none } : RunResult).returned =
      some (GoError.wrapped "server error" (GoError.otherErr "accept: fd closed")) := by
  have h := run_branch_mutual_exclusion
    ⟨some (GoError.otherErr "accept: fd closed"), false,
      SelectBranch.listenerErrBranch, none⟩
    { branch := SelectBranch.listenerErrBranch,
      returned := some (GoError.wrapped "server error"
        (GoError.otherErr "accept: fd closed")),
      shutdownTimeout := none } (by decide)
  exact ⟨by decide, h.2 (by decide) (GoError.otherErr "accept: fd closed") (by decide)⟩
